import Mathlib

/-
Shallow embedding of shed/ncspan_grabber.py.

The program downloads a media stream for a bounded duration
(download_with_timeout), classifies YouTube URLs before capture
(is_stream_live_or_exit), renames the captured artifact from a
timestamp template (generate_timestamped_output_template) and writes
two Internet Archive sidecar documents
(write_internet_archive_metadata_files).

Modelling conventions:
- wall-clock instants are natural numbers (seconds);
- Python None-able values are Option;
- Python truthiness of an optional boolean is truthy below;
- log messages are kept verbatim where they are simple string
  concatenations, and abstracted to their level (info or warning)
  inside is_stream_live_or_exit, whose scheduled-time message would
  need a full epoch-to-calendar conversion;
- filesystem writes are returned as (path, contents) pairs instead of
  being performed.
-/

namespace Ncspan

/-- Python truthiness of an optional boolean: None is falsy. -/
def truthy : Option Bool → Bool
  | some b => b
  | none => false

/-- Python expression a or b for an optional string a: None and the
empty string are falsy, so both fall back to b. -/
def pyOrStr : Option String → String → String
  | some s, b => if s = "" then b else s
  | none, b => b

/-- Python substring test needle in hay. -/
def pyIn (needle hay : String) : Bool :=
  decide (List.IsInfix needle.data hay.data)

/-- Does the character list start with the given pattern? -/
def starts_with_chars : List Char → List Char → Bool
  | _, [] => true
  | [], _ :: _ => false
  | c :: cs, p :: ps => c == p && starts_with_chars cs ps

/-- Python str.startswith. -/
def py_startswith (s pre : String) : Bool :=
  starts_with_chars s.data pre.data

/-- Python str.endswith. -/
def py_endswith (s post : String) : Bool :=
  starts_with_chars s.data.reverse post.data.reverse

/-- os.path.join restricted to two components, as used by the source. -/
def path_join (a b : String) : String :=
  if py_startswith b "/" then b
  else if a = "" then b
  else if py_endswith a "/" then a ++ b
  else a ++ "/" ++ b

/-- Index of the last dot of a character list, if any. -/
def last_dot_idx (l : List Char) : Option Nat :=
  match l.reverse.findIdx? (fun c => c == '.') with
  | none => none
  | some k => some (l.length - 1 - k)

/-- os.path.splitext for a name without directory separators (every
call site of the source passes a basename): split at the last dot
unless every character before it is itself a dot. -/
def splitext (s : String) : String × String :=
  match last_dot_idx s.data with
  | none => (s, "")
  | some i =>
    if (s.data.take i).all (fun c => c == '.') then (s, "")
    else (String.mk (s.data.take i), String.mk (s.data.drop i))

/-- Python str.lstrip with argument a single dot: drop leading dots. -/
def lstrip_dots (s : String) : String :=
  String.mk (s.data.dropWhile (fun c => c == '.'))

/-- os.path.basename: the part after the last slash. -/
def basename (s : String) : String :=
  String.mk ((s.data.reverse.takeWhile (fun c => c != '/')).reverse)

/-- Fuel-indexed worker for py_replace: replace every non-overlapping
occurrence of pattern, scanning left to right. The fuel is the length
of the scanned list, so it never runs out. -/
def replace_fuel (pattern replacement : List Char) : Nat → List Char → List Char
  | _, [] => []
  | 0, l => l
  | fuel + 1, c :: cs =>
    if starts_with_chars (c :: cs) pattern then
      replacement ++ replace_fuel pattern replacement fuel (List.drop (pattern.length - 1) cs)
    else
      c :: replace_fuel pattern replacement fuel cs

/-- Python str.replace for a non-empty pattern (the source only ever
replaces the literal pattern of the ext placeholder). -/
def py_replace (s pattern replacement : String) : String :=
  if pattern = "" then s
  else String.mk (replace_fuel pattern.data replacement.data s.data.length s.data)

/-- A calendar timestamp, already in UTC, as produced by datetime. -/
structure Datetime where
  year : Nat
  month : Nat
  day : Nat
  hour : Nat
  minute : Nat
  second : Nat
deriving DecidableEq

/-- Zero-pad a number to the given width, as strftime does. -/
def zero_pad (w n : Nat) : String :=
  let s := toString n
  String.mk (List.replicate (w - s.length) '0') ++ s

/-- strftime with format Y m d T H M S, the compact form used for
filenames in the source. -/
def strftime_compact (t : Datetime) : String :=
  zero_pad 4 t.year ++ zero_pad 2 t.month ++ zero_pad 2 t.day ++ "T" ++
    zero_pad 2 t.hour ++ zero_pad 2 t.minute ++ zero_pad 2 t.second

/-- generate_timestamped_output_template from the source: the binder
pfx stands for the parameter named prefix there, which is a Lean
keyword. -/
def generate_timestamped_output_template (start_dt end_dt : Datetime) (pfx ext_template : String) : String :=
  pfx ++ "live_" ++ strftime_compact start_dt ++ "_to_" ++ strftime_compact end_dt ++ "." ++ ext_template

/-- Severity of an emitted log message. -/
inductive LogLevel where
  | info
  | warning
deriving DecidableEq

/-- Result of the metadata extraction attempt inside
is_stream_live_or_exit: either the raised exception message or the
info dictionary fields the function reads. -/
inductive ExtractResult where
  | err (msg : String)
  | ok (extractor : Option String) (is_live : Option Bool) (was_live : Option Bool) (release_timestamp : Option Nat)
deriving DecidableEq

/-- Outcome of is_stream_live_or_exit: either a returned stream type
string, or process termination via exit with the given status code
(in which case no capture is ever attempted). -/
inductive CheckOutcome where
  | ret (stream_type : String)
  | exit (code : Nat)
deriving DecidableEq

/-- is_stream_live_or_exit from the source, paired with the levels of
the log messages it emits. Extraction failure degrades to generic with
a warning; a generic extractor returns generic; a live stream that was
not previously live is scheduled, so the process exits 0 (whether or
not a release timestamp is present); a live stream that was previously
live has ended, so the process exits 0; otherwise the function returns
structured. -/
def is_stream_live_or_exit (r : ExtractResult) : CheckOutcome × List LogLevel :=
  match r with
  | .err _ => (.ret "generic", [.warning])
  | .ok extractor is_live was_live release_timestamp =>
    if extractor = some "generic" then
      (.ret "generic", [.info])
    else if truthy is_live && ! truthy was_live then
      match release_timestamp with
      | some _ => (.exit 0, [.info])
      | none => (.exit 0, [.info])
    else if truthy is_live && truthy was_live then
      (.exit 0, [.info])
    else
      (.ret "structured", [.info])

/-- The pre-capture phase of main: the live-stream check runs exactly
when the URL contains youtube.com or youtu.be as a substring; any
other URL skips classification and is treated as generic. The first
component records whether is_stream_live_or_exit was invoked. -/
def main_stream_check (url : String) (r : ExtractResult) : Bool × (CheckOutcome × List LogLevel) :=
  if pyIn "youtube.com" url || pyIn "youtu.be" url then
    (true, is_stream_live_or_exit r)
  else
    (false, (.ret "generic", [.info]))

/-- The threading.Event used as stop_flag: a binary flag. -/
structure Event where
  is_set : Bool
deriving DecidableEq

/-- Event.set from threading: the flag becomes set, whatever it was. -/
def Event.set (_e : Event) : Event := ⟨true⟩

/-- Timing behavior of one download worker thread, relative to its
launch: natural is the instant (seconds after launch) at which the
thread body finishes on its own, if it ever does; cancel_delay is how
long after stop_flag.set the progress hook next fires so that the
worker observes the flag, raises the synthetic timeout fault and
unwinds, if that ever happens. -/
structure WorkerBehavior where
  natural : Option Nat
  cancel_delay : Option Nat
deriving DecidableEq

/-- Observable outcome of download_with_timeout: the instant at which
stop_flag.set was called, if it was, and the returned
(start_time, end_time) pair; window is none when the call never
returns because the final unbounded join never completes. -/
structure CaptureResult where
  flag_set_at : Option Nat
  window : Option (Nat × Nat)
deriving DecidableEq

/-- download_with_timeout from the source as a timed model. The
orchestrator records start_time, launches the worker, then joins with
a timeout of duration seconds. If the thread is still alive it sets
stop_flag at start_time + duration and joins again with no timeout;
end_time is recorded when that join returns, which happens at the
earlier of natural completion and cancellation unwinding, and never
happens if the worker neither finishes nor observes the flag. -/
def download_with_timeout (start_time duration : Nat) (w : WorkerBehavior) : CaptureResult :=
  match w.natural with
  | some n =>
    if duration < n then
      match w.cancel_delay with
      | some c => ⟨some (start_time + duration), some (start_time, min (start_time + n) (start_time + duration + c))⟩
      | none => ⟨some (start_time + duration), some (start_time, start_time + n)⟩
    else
      ⟨none, some (start_time, start_time + n)⟩
  | none =>
    match w.cancel_delay with
    | some c => ⟨some (start_time + duration), some (start_time, start_time + duration + c)⟩
    | none => ⟨some (start_time + duration), none⟩

/-- What escapes the thread body run_downloader, plus the warnings it
logs. -/
structure RunResult where
  raised : Option String
  warnings : List String
deriving DecidableEq

/-- run_downloader from the source: the download either succeeds or
raises an exception (network fault, fetcher-internal error, or the
synthetic cancellation fault from the progress hook); every exception
is caught by the bare except inside the thread body and logged as a
warning, so nothing ever escapes. -/
def run_downloader (dl : Except String Unit) : RunResult :=
  match dl with
  | .ok _ => ⟨none, []⟩
  | .error e => ⟨none, ["Download interrupted: " ++ e]⟩

/-- Contents of the files sidecar document. -/
def files_document (filename : String) : String :=
  "<files>\n  <file name=\"" ++ filename ++ "\"/>\n</files>\n"

/-- Contents of the meta sidecar document: the title falls back to the
identifier and the optional fields to the empty string, all via Python
or. -/
def meta_document (identifier : String) (title description creator license_url : Option String) : String :=
  "<metadata>\n  <title>" ++ pyOrStr title identifier ++ "</title>\n  <identifier>" ++
    identifier ++ "</identifier>\n  <description>" ++ pyOrStr description "" ++
    "</description>\n  <creator>" ++ pyOrStr creator "" ++ "</creator>\n  <licenseurl>" ++
    pyOrStr license_url "" ++ "</licenseurl>\n  <mediatype>movies</mediatype>\n</metadata>\n"

/-- write_internet_archive_metadata_files from the source, returning
the performed writes as (path, contents) pairs. -/
def write_internet_archive_metadata_files (output_dir identifier filename : String)
    (title description creator license_url : Option String) : List (String × String) :=
  [ (path_join output_dir (identifier ++ "_files.xml"), files_document filename),
    (path_join output_dir (identifier ++ "_meta.xml"), meta_document identifier title description creator license_url) ]

/-- The finalization loop of main on the default temporary-template
path, given the directory listing after the capture: for every entry
that starts with temp. and does not end in .part, the template has its
ext placeholder substituted by the entry extension, the file is
renamed, and the two sidecar documents keyed by the stem of the final
name are written. The returned list is all sidecar writes performed. -/
def main_default_output_finalize (output_dir : String) (listing : List String)
    (final_template : String) (title description creator license_url : Option String) : List (String × String) :=
  listing.flatMap (fun file =>
    if py_startswith file "temp." && ! py_endswith file ".part" then
      write_internet_archive_metadata_files output_dir
        (splitext (py_replace final_template "%(ext)s" (lstrip_dots (splitext file).2))).1
        (py_replace final_template "%(ext)s" (lstrip_dots (splitext file).2))
        title description creator license_url
    else [])

/-- The finalization of main on the explicit-output path: the sidecar
documents are written once, keyed by the stem of the basename of the
supplied output template. -/
def main_explicit_output_finalize (output_dir output : String)
    (title description creator license_url : Option String) : List (String × String) :=
  write_internet_archive_metadata_files output_dir
    (splitext (basename output)).1 (basename output)
    title description creator license_url

/-- Helper: the Python substring test holds exactly when the haystack
decomposes around the needle. -/
theorem pyIn_eq_true_iff (needle hay : String) :
    pyIn needle hay = true ↔ ∃ s t, hay.data = s ++ needle.data ++ t := by
  unfold pyIn
  rw [decide_eq_true_eq]
  constructor
  · rintro ⟨s, t, h⟩
    exact ⟨s, t, h.symm⟩
  · rintro ⟨s, t, h⟩
    exact ⟨s, t, h.symm⟩

/-- Claim C1: in download_with_timeout, for every duration, if the
worker never completes on its own then the orchestrator sets stop_flag
no earlier than duration seconds after the recorded start, and any
returned end timestamp is at least start plus duration. -/
theorem download_with_timeout_timeout_path (s d : Nat) (w : WorkerBehavior)
    (h : w.natural = none) :
    (∃ t, (download_with_timeout s d w).flag_set_at = some t ∧ s + d ≤ t) ∧
    (∀ a b, (download_with_timeout s d w).window = some (a, b) → s + d ≤ b) := by
  rcases hc : w.cancel_delay with _ | c
  · refine ⟨⟨s + d, ?_, Nat.le_refl _⟩, ?_⟩
    · simp [download_with_timeout, h, hc]
    · intro a b hb
      simp [download_with_timeout, h, hc] at hb
  · refine ⟨⟨s + d, ?_, Nat.le_refl _⟩, ?_⟩
    · simp [download_with_timeout, h, hc]
    · intro a b hb
      simp [download_with_timeout, h, hc] at hb
      omega

/-- Witness for claim C1 at a concrete run: start 100, duration 5, a
worker that never completes naturally and notices cancellation after
3 seconds. -/
theorem download_with_timeout_timeout_path_witness :
    (∃ t, (download_with_timeout 100 5 ⟨none, some 3⟩).flag_set_at = some t ∧ 100 + 5 ≤ t) ∧
    (∀ a b, (download_with_timeout 100 5 ⟨none, some 3⟩).window = some (a, b) → 100 + 5 ≤ b) :=
  download_with_timeout_timeout_path 100 5 ⟨none, some 3⟩ rfl

/-- Claim C2: if the worker completes naturally before duration
seconds elapse, stop_flag is never set and the returned end timestamp
is the natural completion instant, not start plus duration. -/
theorem download_with_timeout_natural_completion (s d n : Nat) (w : WorkerBehavior)
    (h : w.natural = some n) (hn : n < d) :
    (download_with_timeout s d w).flag_set_at = none ∧
    (download_with_timeout s d w).window = some (s, s + n) := by
  have hd : ¬ d < n := by omega
  simp [download_with_timeout, h, hd]

/-- Witness for claim C2 at a concrete run: start 0, duration 10, a
worker that finishes on its own after 3 seconds. -/
theorem download_with_timeout_natural_completion_witness :
    (download_with_timeout 0 10 ⟨some 3, none⟩).flag_set_at = none ∧
    (download_with_timeout 0 10 ⟨some 3, none⟩).window = some (0, 0 + 3) :=
  download_with_timeout_natural_completion 0 10 3 ⟨some 3, none⟩ rfl (by decide)

/-- Claim C3: every exception raised inside the download worker is
caught inside run_downloader and logged as a warning, nothing escapes
the thread body, and download_with_timeout still returns a
(start, end) pair whenever the faulting worker terminates. -/
theorem run_downloader_absorbs_faults (e : String) (s d n : Nat) (w : WorkerBehavior)
    (h : w.natural = some n) :
    (run_downloader (Except.error e)).raised = none ∧
    (run_downloader (Except.error e)).warnings = ["Download interrupted: " ++ e] ∧
    (download_with_timeout s d w).window.isSome = true := by
  refine ⟨rfl, rfl, ?_⟩
  rcases hc : w.cancel_delay with _ | c <;> by_cases hd : d < n <;>
    simp [download_with_timeout, h, hc, hd]

/-- Witness for claim C3 at a concrete run: the synthetic timeout
fault, start 0, duration 5, a worker that would finish at 7 seconds. -/
theorem run_downloader_absorbs_faults_witness :
    (run_downloader (Except.error "Timeout reached")).raised = none ∧
    (run_downloader (Except.error "Timeout reached")).warnings = ["Download interrupted: " ++ "Timeout reached"] ∧
    (download_with_timeout 0 5 ⟨some 7, some 1⟩).window.isSome = true :=
  run_downloader_absorbs_faults "Timeout reached" 0 5 7 ⟨some 7, some 1⟩ rfl

/-- Counterexample to claim C4 as stated: for the worker that neither
completes on its own nor ever observes the cancellation flag, the
post-cancellation join never completes, so download_with_timeout never
returns a window even though the flag was set. -/
theorem download_with_timeout_hangs_without_flag_observation :
    (download_with_timeout 0 60 ⟨none, none⟩).flag_set_at = some 60 ∧
    (download_with_timeout 0 60 ⟨none, none⟩).window = none :=
  ⟨rfl, rfl⟩

/-- Claim C4 amended: the post-cancellation join is unbounded, so
download_with_timeout terminates and records end exactly when the
worker eventually exits, that is, when it either completes on its own
or eventually observes the cancellation flag. -/
theorem download_with_timeout_join_completes_iff_worker_exits (s d : Nat) (w : WorkerBehavior) :
    (download_with_timeout s d w).window.isSome = true ↔
      (w.natural.isSome = true ∨ w.cancel_delay.isSome = true) := by
  rcases w with ⟨nat, cd⟩
  rcases nat with _ | n
  · rcases cd with _ | c <;> simp [download_with_timeout]
  · rcases cd with _ | c <;> by_cases hd : d < n <;> simp [download_with_timeout, hd]

/-- Claim C5: the classification table of is_stream_live_or_exit.
Extraction failure yields generic with a warning and capture proceeds;
a generic extractor yields generic and proceeds; a live and not
previously live stream makes the process exit 0; a live and previously
live stream makes the process exit 0; a stream not marked live
proceeds as structured. -/
theorem is_stream_live_or_exit_classification :
    (∀ m, is_stream_live_or_exit (.err m) = (.ret "generic", [.warning])) ∧
    (∀ il wl ts, is_stream_live_or_exit (.ok (some "generic") il wl ts) = (.ret "generic", [.info])) ∧
    (∀ ex il wl ts, ex ≠ some "generic" → truthy il = true → truthy wl = false →
      is_stream_live_or_exit (.ok ex il wl ts) = (.exit 0, [.info])) ∧
    (∀ ex il wl ts, ex ≠ some "generic" → truthy il = true → truthy wl = true →
      is_stream_live_or_exit (.ok ex il wl ts) = (.exit 0, [.info])) ∧
    (∀ ex il wl ts, ex ≠ some "generic" → truthy il = false →
      is_stream_live_or_exit (.ok ex il wl ts) = (.ret "structured", [.info])) := by
  refine ⟨fun m => rfl, fun il wl ts => ?_, fun ex il wl ts hex hil hwl => ?_,
    fun ex il wl ts hex hil hwl => ?_, fun ex il wl ts hex hil => ?_⟩
  · simp [is_stream_live_or_exit]
  · cases ts <;> simp [is_stream_live_or_exit, hex, hil, hwl]
  · simp [is_stream_live_or_exit, hex, hil, hwl]
  · simp [is_stream_live_or_exit, hex, hil]

/-- Witness for claim C5 at concrete inputs: a structured extractor
with a live, not previously live stream carrying a release timestamp
makes the process exit 0. -/
theorem is_stream_live_or_exit_classification_witness :
    is_stream_live_or_exit (.ok (some "youtube") (some true) (some false) (some 1700000000)) = (.exit 0, [.info]) :=
  is_stream_live_or_exit_classification.2.2.1 (some "youtube") (some true) (some false)
    (some 1700000000) (by decide) rfl rfl

/-- Counterexample to claim C6 as stated: on the default
temporary-template path, when the capture completes but the directory
holds only a partial artifact (or none at all), no sidecar documents
are written. -/
theorem main_default_output_finalize_no_matching_artifact :
    main_default_output_finalize "." ["temp.mp4.part"]
      "show_live_20240101T000000_to_20240101T000500.%(ext)s" none none none none = [] := by
  decide

/-- Claim C6 amended: on the explicit-output path the two sidecar
documents keyed by the stem of the output basename are always written;
on the default temporary-template path the pair keyed by the stem of
the renamed file is written for every listing entry that starts with
temp. and does not end in .part, and only for those, so an invocation
whose capture leaves no such entry writes no sidecars. -/
theorem sidecar_documents_for_matching_artifacts
    (dir out tmpl : String) (listing : List String) (file : String)
    (ti de cr li : Option String)
    (hmem : file ∈ listing) (hpre : py_startswith file "temp." = true)
    (hpart : py_endswith file ".part" = false) :
    ((main_explicit_output_finalize dir out ti de cr li).map Prod.fst =
      [path_join dir ((splitext (basename out)).1 ++ "_files.xml"),
       path_join dir ((splitext (basename out)).1 ++ "_meta.xml")]) ∧
    (path_join dir ((splitext (py_replace tmpl "%(ext)s" (lstrip_dots (splitext file).2))).1 ++ "_files.xml")
        ∈ (main_default_output_finalize dir listing tmpl ti de cr li).map Prod.fst ∧
     path_join dir ((splitext (py_replace tmpl "%(ext)s" (lstrip_dots (splitext file).2))).1 ++ "_meta.xml")
        ∈ (main_default_output_finalize dir listing tmpl ti de cr li).map Prod.fst) := by
  refine ⟨rfl, ?_, ?_⟩
  · apply List.mem_map.mpr
    refine ⟨(path_join dir ((splitext (py_replace tmpl "%(ext)s" (lstrip_dots (splitext file).2))).1 ++ "_files.xml"),
      files_document (py_replace tmpl "%(ext)s" (lstrip_dots (splitext file).2))), ?_, rfl⟩
    apply List.mem_flatMap.mpr
    refine ⟨file, hmem, ?_⟩
    simp [hpre, hpart, write_internet_archive_metadata_files]
  · apply List.mem_map.mpr
    refine ⟨(path_join dir ((splitext (py_replace tmpl "%(ext)s" (lstrip_dots (splitext file).2))).1 ++ "_meta.xml"),
      meta_document (splitext (py_replace tmpl "%(ext)s" (lstrip_dots (splitext file).2))).1 ti de cr li), ?_, rfl⟩
    apply List.mem_flatMap.mpr
    refine ⟨file, hmem, ?_⟩
    simp [hpre, hpart, write_internet_archive_metadata_files]

/-- Witness for the amended claim C6 at concrete inputs: directory
listing with a single completed artifact temp.mp4. -/
theorem sidecar_documents_for_matching_artifacts_witness :
    ((main_explicit_output_finalize "." "video.%(ext)s" none none none none).map Prod.fst =
      [path_join "." ((splitext (basename "video.%(ext)s")).1 ++ "_files.xml"),
       path_join "." ((splitext (basename "video.%(ext)s")).1 ++ "_meta.xml")]) ∧
    (path_join "." ((splitext (py_replace "show_live_A_to_B.%(ext)s" "%(ext)s" (lstrip_dots (splitext "temp.mp4").2))).1 ++ "_files.xml")
        ∈ (main_default_output_finalize "." ["temp.mp4"] "show_live_A_to_B.%(ext)s" none none none none).map Prod.fst ∧
     path_join "." ((splitext (py_replace "show_live_A_to_B.%(ext)s" "%(ext)s" (lstrip_dots (splitext "temp.mp4").2))).1 ++ "_meta.xml")
        ∈ (main_default_output_finalize "." ["temp.mp4"] "show_live_A_to_B.%(ext)s" none none none none).map Prod.fst) :=
  sidecar_documents_for_matching_artifacts "." "video.%(ext)s" "show_live_A_to_B.%(ext)s"
    ["temp.mp4"] "temp.mp4" none none none none (List.mem_singleton.mpr rfl) (by decide) (by decide)

/-- Claim C7: filename construction is deterministic. For the stated
start and end instants, prefix show_ and extension mp4, the template
after extension substitution is exactly the stated filename. -/
theorem final_filename_deterministic :
    py_replace
      (generate_timestamped_output_template ⟨2024, 1, 1, 0, 0, 0⟩ ⟨2024, 1, 1, 0, 5, 0⟩ "show_" "%(ext)s")
      "%(ext)s" (lstrip_dots (splitext "temp.mp4").2) =
    "show_live_20240101T000000_to_20240101T000500.mp4" := by
  decide

set_option maxRecDepth 8192 in
/-- Claim C8: write_internet_archive_metadata_files with identifier X,
filename X.mp4 and no optional fields writes the two sidecar documents
in the output directory; the metadata document has title X (falling
back to the identifier) and carries description, creator and license
elements holding empty strings, never absent. -/
theorem metadata_defaults_round_trip :
    write_internet_archive_metadata_files "." "X" "X.mp4" none none none none =
      [("./X_files.xml", "<files>\n  <file name=\"X.mp4\"/>\n</files>\n"),
       ("./X_meta.xml",
        "<metadata>\n  <title>X</title>\n  <identifier>X</identifier>\n  <description></description>\n  <creator></creator>\n  <licenseurl></licenseurl>\n  <mediatype>movies</mediatype>\n</metadata>\n")] := by
  decide

/-- Claim C9: setting the cancellation flag twice has exactly the same
observable effect as setting it once, and a set flag reads as set. -/
theorem stop_flag_set_idempotent (e : Event) :
    Event.set (Event.set e) = Event.set e ∧ (Event.set e).is_set = true :=
  ⟨rfl, rfl⟩

/-- Claim C10: main invokes the live-stream classification exactly
when the URL contains youtube.com or youtu.be as a substring anywhere
in it; every other URL skips classification and proceeds as generic
without any metadata query. -/
theorem main_live_check_iff_youtube_url (url : String) (r : ExtractResult) :
    ((main_stream_check url r).1 = true ↔
      ((∃ s t, url.data = s ++ "youtube.com".data ++ t) ∨
       (∃ s t, url.data = s ++ "youtu.be".data ++ t))) ∧
    ((main_stream_check url r).1 = false →
      (main_stream_check url r).2.1 = CheckOutcome.ret "generic") := by
  have key : (main_stream_check url r).1 = (pyIn "youtube.com" url || pyIn "youtu.be" url) := by
    cases hb : (pyIn "youtube.com" url || pyIn "youtu.be" url) <;>
      simp [main_stream_check, hb]
  refine ⟨?_, ?_⟩
  · rw [key, Bool.or_eq_true, pyIn_eq_true_iff, pyIn_eq_true_iff]
  · intro hfalse
    rw [key] at hfalse
    simp [main_stream_check, hfalse]

/-- Witness for claim C10 at a concrete input: a URL that is not a
YouTube URL proceeds as generic without classification. -/
theorem main_live_check_iff_youtube_url_witness :
    (main_stream_check "https://example.com/stream.mp3" (ExtractResult.err "x")).2.1 =
      CheckOutcome.ret "generic" :=
  (main_live_check_iff_youtube_url "https://example.com/stream.mp3" (ExtractResult.err "x")).2
    (by decide)

end Ncspan
